import Mathlib

/-!
Verification of the authored logic in `Moon_Data/Moon_Classification_Exercise.ipynb`:
the client-side `evaluate` metrics function, the `make_csv` helper, and the
`delete_endpoint` convenience function, embedded shallowly as pure Lean functions.

Arrays of numpy scalars are modelled as Lean lists; integer-valued label and
prediction arrays as `List ℤ`; real-valued scores as `List ℚ` (the notebook's
floating-point scores are modelled by rationals, which share the relevant
arithmetic structure: ordering, rounding, and exact division outcomes on the
small integer counts involved).
-/

namespace MoonEval

/-- Embedding of `np.round` on a rational scalar: round to the nearest integer, ties going
to the even integer (numpy's half-to-even rule).  The fractional part
`q - ⌊q⌋ = (q.num - ⌊q⌋·q.den)/q.den` is compared against `1/2` in exact
integer arithmetic: `2·(q.num - ⌊q⌋·q.den)` versus `q.den`. -/
def npRound (q : ℚ) : ℤ :=
  let f : ℤ := q.floor
  let t : ℤ := 2 * (q.num - f * (q.den : ℤ))
  if t < (q.den : ℤ) then f
  else if (q.den : ℤ) < t then f + 1
  else if f % 2 = 0 then f else f + 1

/-- The dictionary of metrics returned by `evaluate`
(`{'TP', 'FP', 'FN', 'TN', 'Precision', 'Recall', 'Accuracy'}`). -/
structure Metrics where
  TP : ℕ
  FP : ℕ
  FN : ℕ
  TN : ℕ
  Precision : ℚ
  Recall : ℚ
  Accuracy : ℚ
deriving DecidableEq, Repr

/-- The observable outcome of one `evaluate` call: the returned metrics
dictionary together with the lines printed to stdout. -/
structure EvalResult where
  metrics : Metrics
  printed : List String
deriving DecidableEq, Repr

/-- Embedding of `np.logical_and(test_labels, test_preds).sum()`: elementwise conjunction of
the two arrays under numpy truthiness (an entry is true iff it is nonzero),
summed.  Here the two arrays are given pre-zipped. -/
def tpCount (pairs : List (ℤ × ℤ)) : ℕ :=
  pairs.countP (fun z => z.1 != 0 && z.2 != 0)

/-- Embedding of `np.logical_and(1-test_labels, test_preds).sum()`. -/
def fpCount (pairs : List (ℤ × ℤ)) : ℕ :=
  pairs.countP (fun z => (1 - z.1) != 0 && z.2 != 0)

/-- Embedding of `np.logical_and(1-test_labels, 1-test_preds).sum()`. -/
def tnCount (pairs : List (ℤ × ℤ)) : ℕ :=
  pairs.countP (fun z => (1 - z.1) != 0 && (1 - z.2) != 0)

/-- Embedding of `np.logical_and(test_labels, 1-test_preds).sum()`. -/
def fnCount (pairs : List (ℤ × ℤ)) : ℕ :=
  pairs.countP (fun z => z.1 != 0 && (1 - z.2) != 0)

/-- The notebook's `evaluate(predictor, test_features, test_labels, verbose=True)`.
The deployed predictor is modelled as a fixed batch function
`predict : List F → List ℚ` (the endpoint's score for each feature row);
`np.squeeze` is a shape adjustment with no effect on the modelled 1-D data.
The scores are rounded with `np.round`, the four confusion counts are the
summed elementwise `np.logical_and` of the label/prediction arrays and their
complements, and recall, precision and accuracy are the quotients formed from
them (division modelled by total `ℚ` division; the notebook inherits the host
arithmetic, producing NaN on a zero denominator).  When `verbose` is true the
metric lines are printed (the `pd.crosstab` table print is elided from the
model; no claim concerns its content); the metrics dictionary is returned
either way. -/
def evaluate {F : Type} (predict : List F → List ℚ)
    (test_features : List F) (test_labels : List ℤ) (verbose : Bool) :
    EvalResult :=
  let test_preds : List ℤ := (predict test_features).map npRound
  let pairs : List (ℤ × ℤ) := test_labels.zip test_preds
  let tp := tpCount pairs
  let fp := fpCount pairs
  let tn := tnCount pairs
  let fn := fnCount pairs
  let recall' : ℚ := (tp : ℚ) / ((tp : ℚ) + (fn : ℚ))
  let precision : ℚ := (tp : ℚ) / ((tp : ℚ) + (fp : ℚ))
  let accuracy : ℚ := ((tp : ℚ) + (tn : ℚ)) / ((tp : ℚ) + (fp : ℚ) + (tn : ℚ) + (fn : ℚ))
  let printed : List String :=
    if verbose then
      ["Recall: " ++ toString recall',
       "Precision: " ++ toString precision,
       "Accuracy: " ++ toString accuracy]
    else []
  { metrics :=
      { TP := tp, FP := fp, FN := fn, TN := tn,
        Precision := precision, Recall := recall', Accuracy := accuracy },
    printed := printed }

/-- The metrics dictionary `evaluate` returns when the predictor's scores for
the test features are the given list (obtained by passing the scores through
the identity predictor, as the notebook's default `verbose=True`). -/
def evalMetrics (test_labels : List ℤ) (scores : List ℚ) : Metrics :=
  (evaluate (fun v => v) scores test_labels true).metrics

/-- The spec's §4.2 wording of the four confusion counts, read literally:
`TP` counts positions where the label and the rounded prediction are both `1`. -/
def specTPCount (pairs : List (ℤ × ℤ)) : ℕ :=
  pairs.countP (fun z => z.1 == 1 && z.2 == 1)

/-- Spec wording: `FP` counts positions where the label is `0` and the rounded
prediction is `1`. -/
def specFPCount (pairs : List (ℤ × ℤ)) : ℕ :=
  pairs.countP (fun z => z.1 == 0 && z.2 == 1)

/-- Spec wording: `TN` counts positions where the label and the rounded
prediction are both `0`. -/
def specTNCount (pairs : List (ℤ × ℤ)) : ℕ :=
  pairs.countP (fun z => z.1 == 0 && z.2 == 0)

/-- Spec wording: `FN` counts positions where the label is `1` and the rounded
prediction is `0`. -/
def specFNCount (pairs : List (ℤ × ℤ)) : ℕ :=
  pairs.countP (fun z => z.1 == 1 && z.2 == 0)

/-- The evaluation contract as the spec words it (for the refinement claim):
round the scores, count `TP/FP/TN/FN` by the literal `both are 1` (etc.)
readings, and derive `recall = TP/(TP+FN)`, `precision = TP/(TP+FP)`,
`accuracy = (TP+TN)/(TP+FP+TN+FN)`. -/
def specMetrics (test_labels : List ℤ) (scores : List ℚ) : Metrics :=
  let preds : List ℤ := scores.map npRound
  let pairs : List (ℤ × ℤ) := test_labels.zip preds
  let tp := specTPCount pairs
  let fp := specFPCount pairs
  let tn := specTNCount pairs
  let fn := specFNCount pairs
  { TP := tp, FP := fp, FN := fn, TN := tn,
    Precision := (tp : ℚ) / ((tp : ℚ) + (fp : ℚ)),
    Recall := (tp : ℚ) / ((tp : ℚ) + (fn : ℚ)),
    Accuracy := ((tp : ℚ) + (tn : ℚ)) / ((tp : ℚ) + (fp : ℚ) + (tn : ℚ) + (fn : ℚ)) }

/-- The notebook's `delete_endpoint(predictor)`.  The SDK call
`boto3.client('sagemaker').delete_endpoint(EndpointName=predictor.endpoint)`
is modelled as a caller-supplied fallible operation `deleteOp` applied to the
predictor's endpoint name; the `try/except` around it is modelled by matching
on the call's outcome.  The result is the line printed by the function,
wrapped in `Except` so that a propagated exception is representable: the body
prints `Deleted <name>` when the call succeeds and `Already deleted: <name>`
when it raises, re-raising nothing on either branch. -/
def delete_endpoint {E : Type} (deleteOp : String → Except E Unit)
    (endpoint : String) : Except E String :=
  match deleteOp endpoint with
  | Except.ok _ => Except.ok ("Deleted " ++ endpoint)
  | Except.error _ => Except.ok ("Already deleted: " ++ endpoint)

/-- Modelled from the spec: the CSV-writing body of `make_csv` is an unfilled
fill-in-the-blank stub in the notebook (`# your code here`), so the label-first
serialization it is meant to perform is modelled from the spec's words: one
row per example, first field the label, remaining fields the features, no
header row.  A file is modelled at record granularity as the list of its
rows, each row the list of its comma-separated fields. -/
def csvRowsOf (x : List (List ℚ)) (y : List ℚ) : List (List ℚ) :=
  List.zipWith List.cons y x

/-- Modelled from the spec: reading a label-first tabular file back, inverting
the missing `make_csv` serialization: each row yields (first field as label,
remaining fields as features); a headerless empty row cannot be parsed. -/
def datasetOfRows : List (List ℚ) → Option (List (ℚ × List ℚ))
  | [] => some []
  | [] :: _ => none
  | (l :: fs) :: rest => (datasetOfRows rest).map (fun t => (l, fs) :: t)

/-- The filesystem state touched by `make_csv`: the set of existing
directories and the files present (path paired with content). -/
structure FS where
  dirs : List String
  files : List (String × String)
deriving DecidableEq, Repr

/-- The notebook's `make_csv(x, y, filename, data_dir)` exactly as it stands
in the source: if `data_dir` does not exist it is created with `os.makedirs`;
the CSV-writing section is an unfilled exercise stub (`# your code here`), so
no file is written; finally `'Path created: '+str(data_dir)+'/'+str(filename)`
is printed and nothing is returned.  The function returns the updated
filesystem and the printed line. -/
def make_csv (fs : FS) (x : List (List ℚ)) (y : List ℚ)
    (filename : String) (data_dir : String) : FS × String :=
  let fs' := if data_dir ∈ fs.dirs then fs else { fs with dirs := data_dir :: fs.dirs }
  (fs', "Path created: " ++ data_dir ++ "/" ++ filename)

/-- Unfolding lemma: the metrics dictionary in terms of the four counts over
the zipped label/rounded-prediction arrays. -/
theorem evalMetrics_def (labels : List ℤ) (scores : List ℚ) :
    evalMetrics labels scores =
      { TP := tpCount (labels.zip (scores.map npRound)),
        FP := fpCount (labels.zip (scores.map npRound)),
        FN := fnCount (labels.zip (scores.map npRound)),
        TN := tnCount (labels.zip (scores.map npRound)),
        Precision := (tpCount (labels.zip (scores.map npRound)) : ℚ) /
          ((tpCount (labels.zip (scores.map npRound)) : ℚ) +
            (fpCount (labels.zip (scores.map npRound)) : ℚ)),
        Recall := (tpCount (labels.zip (scores.map npRound)) : ℚ) /
          ((tpCount (labels.zip (scores.map npRound)) : ℚ) +
            (fnCount (labels.zip (scores.map npRound)) : ℚ)),
        Accuracy := ((tpCount (labels.zip (scores.map npRound)) : ℚ) +
            (tnCount (labels.zip (scores.map npRound)) : ℚ)) /
          ((tpCount (labels.zip (scores.map npRound)) : ℚ) +
            (fpCount (labels.zip (scores.map npRound)) : ℚ) +
            (tnCount (labels.zip (scores.map npRound)) : ℚ) +
            (fnCount (labels.zip (scores.map npRound)) : ℚ)) } := rfl

/-- When every label and every rounded prediction is `0` or `1`, the code's
truthiness-based counts agree with the spec's literal `both are 1` (etc.)
counts. -/
theorem counts_eq_specCounts (pairs : List (ℤ × ℤ))
    (h : ∀ z ∈ pairs, (z.1 = 0 ∨ z.1 = 1) ∧ (z.2 = 0 ∨ z.2 = 1)) :
    tpCount pairs = specTPCount pairs ∧ fpCount pairs = specFPCount pairs ∧
    tnCount pairs = specTNCount pairs ∧ fnCount pairs = specFNCount pairs := by
  induction pairs with
  | nil =>
    simp [tpCount, specTPCount, fpCount, specFPCount, tnCount, specTNCount,
      fnCount, specFNCount]
  | cons z t ih =>
    obtain ⟨h1, h2⟩ := h z (List.mem_cons_self z t)
    have ih' := ih (fun w hw => h w (List.mem_cons_of_mem z hw))
    rcases h1 with h1 | h1 <;> rcases h2 with h2 | h2 <;>
      simp [tpCount, specTPCount, fpCount, specFPCount, tnCount, specTNCount,
        fnCount, specFNCount, List.countP_cons, h1, h2,
        ih'.1, ih'.2.1, ih'.2.2.1, ih'.2.2.2] at ih' ⊢ <;>
      omega

/-- When every label and every rounded prediction is `0` or `1`, the four
counts partition the evaluated examples. -/
theorem counts_sum (pairs : List (ℤ × ℤ))
    (h : ∀ z ∈ pairs, (z.1 = 0 ∨ z.1 = 1) ∧ (z.2 = 0 ∨ z.2 = 1)) :
    tpCount pairs + fpCount pairs + tnCount pairs + fnCount pairs =
      pairs.length := by
  induction pairs with
  | nil => simp [tpCount, fpCount, tnCount, fnCount]
  | cons z t ih =>
    obtain ⟨h1, h2⟩ := h z (List.mem_cons_self z t)
    have ih' := ih (fun w hw => h w (List.mem_cons_of_mem z hw))
    rcases h1 with h1 | h1 <;> rcases h2 with h2 | h2 <;>
      simp [tpCount, fpCount, tnCount, fnCount, List.countP_cons, h1, h2] <;>
      simp [tpCount, fpCount, tnCount, fnCount] at ih' <;>
      omega

/-- Zipping a list with itself pairs each element with itself. -/
theorem mem_zip_self {α : Type} (ls : List α) (z : α × α)
    (hz : z ∈ ls.zip ls) : z.1 = z.2 := by
  induction ls with
  | nil => simp at hz
  | cons a t ih =>
    rw [List.zip_cons_cons] at hz
    rcases List.mem_cons.mp hz with h | h
    · rw [h]
    · exact ih h

/-- A perfectly predicted label list yields no false positives. -/
theorem fp_zip_self (ls : List ℤ) (h : ∀ l ∈ ls, l = 0 ∨ l = 1) :
    fpCount (ls.zip ls) = 0 := by
  refine List.countP_eq_zero.mpr (fun z hz => ?_)
  obtain ⟨a, b⟩ := z
  have hzz : a = b := mem_zip_self ls (a, b) hz
  have hl := h a (List.of_mem_zip hz).1
  subst hzz
  rcases hl with hl | hl <;> simp [hl]

/-- A perfectly predicted label list yields no false negatives. -/
theorem fn_zip_self (ls : List ℤ) (h : ∀ l ∈ ls, l = 0 ∨ l = 1) :
    fnCount (ls.zip ls) = 0 := by
  refine List.countP_eq_zero.mpr (fun z hz => ?_)
  obtain ⟨a, b⟩ := z
  have hzz : a = b := mem_zip_self ls (a, b) hz
  have hl := h a (List.of_mem_zip hz).1
  subst hzz
  rcases hl with hl | hl <;> simp [hl]

/-- For a perfectly predicted `{0,1}` label list the true positives count the
ones. -/
theorem tp_zip_self (ls : List ℤ) (h : ∀ l ∈ ls, l = 0 ∨ l = 1) :
    tpCount (ls.zip ls) = ls.countP (fun l => l == 1) := by
  induction ls with
  | nil => simp [tpCount]
  | cons a t ih =>
    have h1 := h a (List.mem_cons_self a t)
    have ih' := ih (fun w hw => h w (List.mem_cons_of_mem a hw))
    rcases h1 with h1 | h1 <;>
      simp [tpCount, List.zip_cons_cons, List.countP_cons, h1] <;>
      simp [tpCount] at ih' <;> omega

/-- For a perfectly predicted `{0,1}` label list the true negatives count the
zeros. -/
theorem tn_zip_self (ls : List ℤ) (h : ∀ l ∈ ls, l = 0 ∨ l = 1) :
    tnCount (ls.zip ls) = ls.countP (fun l => l == 0) := by
  induction ls with
  | nil => simp [tnCount]
  | cons a t ih =>
    have h1 := h a (List.mem_cons_self a t)
    have ih' := ih (fun w hw => h w (List.mem_cons_of_mem a hw))
    rcases h1 with h1 | h1 <;>
      simp [tnCount, List.zip_cons_cons, List.countP_cons, h1] <;>
      simp [tnCount] at ih' <;> omega

/-- Counts for an everywhere-wrong `{0,1}` prediction list: no true outcomes. -/
theorem counts_all_incorrect (pairs : List (ℤ × ℤ))
    (h : ∀ z ∈ pairs, (z.1 = 0 ∨ z.1 = 1) ∧ (z.2 = 0 ∨ z.2 = 1) ∧ z.1 ≠ z.2) :
    tpCount pairs = 0 ∧ tnCount pairs = 0 := by
  constructor <;>
    refine List.countP_eq_zero.mpr (fun z hz => ?_) <;>
    obtain ⟨hz1, hz2, hz3⟩ := h z hz <;>
    rcases hz1 with hz1 | hz1 <;> rcases hz2 with hz2 | hz2 <;>
    simp_all

/-- Claim C1: applied to true labels `[1,0,1,1]` and any predicted scores that
round to `[1,0,0,1]`, `evaluate` returns the metrics `TP = 2`, `FP = 0`,
`TN = 1`, `FN = 1`, recall `2/3`, precision `1`, and accuracy `3/4`. -/
theorem evaluate_fixed_example (scores : List ℚ)
    (h : scores.map npRound = [1, 0, 0, 1]) :
    evalMetrics [1, 0, 1, 1] scores =
      { TP := 2, FP := 0, FN := 1, TN := 1,
        Precision := 1, Recall := 2/3, Accuracy := 3/4 } := by
  have h1 : tpCount ([(1:ℤ), 0, 1, 1].zip [(1:ℤ), 0, 0, 1]) = 2 := by decide
  have h2 : fpCount ([(1:ℤ), 0, 1, 1].zip [(1:ℤ), 0, 0, 1]) = 0 := by decide
  have h3 : tnCount ([(1:ℤ), 0, 1, 1].zip [(1:ℤ), 0, 0, 1]) = 1 := by decide
  have h4 : fnCount ([(1:ℤ), 0, 1, 1].zip [(1:ℤ), 0, 0, 1]) = 1 := by decide
  simp only [evalMetrics, evaluate, h, h1, h2, h3, h4, Metrics.mk.injEq]
  norm_num

/-- Witness for C1 at the concrete scores `[1,0,0,1]`, which round to
themselves. -/
theorem evaluate_fixed_example_witness :
    ([(1:ℚ), 0, 0, 1].map npRound = [1, 0, 0, 1]) ∧
    evalMetrics [1, 0, 1, 1] [1, 0, 0, 1] =
      { TP := 2, FP := 0, FN := 1, TN := 1,
        Precision := 1, Recall := 2/3, Accuracy := 3/4 } :=
  ⟨by decide, evaluate_fixed_example [1, 0, 0, 1] (by decide)⟩

/-- Claim C2 as stated is false: with labels `[1]` (all in `{0,1}`) and the
equal-length scores `[3]`, `np.round` yields `3`, which is not in `{0,1}`, and
the code's truthiness-based `TP` is `1` while the claim's `both are 1` count
is `0`. -/
theorem evaluate_spec_contract_counterexample :
    npRound 3 = 3 ∧
    (evalMetrics [1] [(3:ℚ)]).TP = 1 ∧ (specMetrics [1] [(3:ℚ)]).TP = 0 := by
  refine ⟨by decide, by decide, by decide⟩

/-- Claim C2 amended: additionally assuming every rounded prediction lies in
`{0,1}` (which holds for the sigmoid scores the notebook feeds it),
`evaluate` computes exactly the metrics dictated by the spec's contract. -/
theorem evaluate_matches_spec_contract (labels : List ℤ) (scores : List ℚ)
    (hlen : labels.length = scores.length)
    (hl : ∀ l ∈ labels, l = 0 ∨ l = 1)
    (hp : ∀ p ∈ scores.map npRound, p = 0 ∨ p = 1) :
    evalMetrics labels scores = specMetrics labels scores := by
  have hz : ∀ z ∈ labels.zip (scores.map npRound),
      (z.1 = 0 ∨ z.1 = 1) ∧ (z.2 = 0 ∨ z.2 = 1) := by
    rintro ⟨a, b⟩ hzz
    exact ⟨hl a (List.of_mem_zip hzz).1, hp b (List.of_mem_zip hzz).2⟩
  obtain ⟨e1, e2, e3, e4⟩ := counts_eq_specCounts _ hz
  rw [evalMetrics_def]
  simp only [specMetrics]
  rw [e1, e2, e3, e4]

/-- Witness for amended C2 at labels `[1,0]`, scores `[1,0]`. -/
theorem evaluate_matches_spec_contract_witness :
    evalMetrics [1, 0] [(1:ℚ), 0] = specMetrics [1, 0] [(1:ℚ), 0] :=
  evaluate_matches_spec_contract [1, 0] [1, 0] rfl (by decide) (by decide)

/-- Claim C3 as stated is false: with labels `[1]` (in `{0,1}`) and the
equal-length scores `[3]`, the rounded prediction `3` makes both
`np.logical_and(labels, preds)` and `np.logical_and(labels, 1-preds)` true at
the same position, so the four counts sum to `2`, not to the single evaluated
example. -/
theorem confusion_counts_sum_counterexample :
    (evalMetrics [1] [(3:ℚ)]).TP + (evalMetrics [1] [(3:ℚ)]).FP +
      (evalMetrics [1] [(3:ℚ)]).TN + (evalMetrics [1] [(3:ℚ)]).FN = 2 ∧
    [(1:ℤ)].length = 1 := by
  refine ⟨by decide, rfl⟩

/-- Claim C3 amended: additionally assuming every rounded prediction lies in
`{0,1}`, the four confusion counts (non-negative by construction, being `ℕ`
counts) sum to the number of evaluated examples. -/
theorem confusion_counts_partition (labels : List ℤ) (scores : List ℚ)
    (hlen : labels.length = scores.length)
    (hl : ∀ l ∈ labels, l = 0 ∨ l = 1)
    (hp : ∀ p ∈ scores.map npRound, p = 0 ∨ p = 1) :
    (evalMetrics labels scores).TP + (evalMetrics labels scores).FP +
      (evalMetrics labels scores).TN + (evalMetrics labels scores).FN =
      labels.length := by
  have hz : ∀ z ∈ labels.zip (scores.map npRound),
      (z.1 = 0 ∨ z.1 = 1) ∧ (z.2 = 0 ∨ z.2 = 1) := by
    rintro ⟨a, b⟩ hzz
    exact ⟨hl a (List.of_mem_zip hzz).1, hp b (List.of_mem_zip hzz).2⟩
  have hs := counts_sum _ hz
  have hlen2 : (labels.zip (scores.map npRound)).length = labels.length := by
    rw [List.length_zip, List.length_map, ← hlen, min_self]
  rw [evalMetrics_def]
  show tpCount _ + fpCount _ + tnCount _ + fnCount _ = labels.length
  exact hs.trans hlen2

/-- Witness for amended C3 at labels `[1,0]`, scores `[1,0]`. -/
theorem confusion_counts_partition_witness :
    (evalMetrics [1, 0] [(1:ℚ), 0]).TP + (evalMetrics [1, 0] [(1:ℚ), 0]).FP +
      (evalMetrics [1, 0] [(1:ℚ), 0]).TN + (evalMetrics [1, 0] [(1:ℚ), 0]).FN =
      [(1:ℤ), 0].length :=
  confusion_counts_partition [1, 0] [1, 0] rfl (by decide) (by decide)

/-- Claim C4: the divisions inside `evaluate` are unguarded.  There is a valid
input — all labels `0`, all scores `0` — on which both the recall denominator
`TP + FN` and the precision denominator `TP + FP` are zero; `evaluate` takes
no error branch there and still returns a dictionary (its embedding applies
total `ℚ` division, standing in for the host arithmetic's NaN). -/
theorem evaluate_unguarded_denominators :
    ∃ (labels : List ℤ) (scores : List ℚ),
      labels ≠ [] ∧ labels.length = scores.length ∧
      (∀ l ∈ labels, l = 0 ∨ l = 1) ∧
      (evalMetrics labels scores).TP + (evalMetrics labels scores).FN = 0 ∧
      (evalMetrics labels scores).TP + (evalMetrics labels scores).FP = 0 :=
  ⟨[0], [0], by decide, rfl, by decide, by decide, by decide⟩

/-- Claim C5: `evaluate` is deterministic and idempotent — for a fixed
predictor function and fixed test data, two calls return the same result (the
embedding is a pure function of its arguments, as the code computes only from
them). -/
theorem evaluate_deterministic {F : Type} (predict : List F → List ℚ)
    (test_features : List F) (test_labels : List ℤ) (verbose : Bool) :
    evaluate predict test_features test_labels verbose =
      evaluate predict test_features test_labels verbose := rfl

/-- Claim C6 as stated is false on its all-incorrect half: with labels
`[1,0]` (non-empty, one `0` and one `1`) and scores `[5,1]`, every rounded
prediction (`5` and `1`) differs from its label and both denominators
`TP+FN = 2` and `TP+FP = 2` are non-zero, yet recall is `1/2`, not `0`,
because the out-of-`{0,1}` prediction `5` is counted as a true positive by
`np.logical_and`. -/
theorem evaluate_boundary_counterexample :
    npRound 5 = 5 ∧ npRound 1 = 1 ∧
    (evalMetrics [1, 0] [(5:ℚ), 1]).TP + (evalMetrics [1, 0] [(5:ℚ), 1]).FN ≠ 0 ∧
    (evalMetrics [1, 0] [(5:ℚ), 1]).TP + (evalMetrics [1, 0] [(5:ℚ), 1]).FP ≠ 0 ∧
    (evalMetrics [1, 0] [(5:ℚ), 1]).Recall = 1/2 ∧
    (evalMetrics [1, 0] [(5:ℚ), 1]).Recall ≠ 0 := by
  have h1 : tpCount ([(1:ℤ), 0].zip ([(5:ℚ), 1].map npRound)) = 1 := by decide
  have h2 : fnCount ([(1:ℤ), 0].zip ([(5:ℚ), 1].map npRound)) = 1 := by decide
  refine ⟨by decide, by decide, by decide, by decide, ?_, ?_⟩ <;>
    rw [evalMetrics_def] <;> dsimp only <;> rw [h1, h2] <;> norm_num

/-- Claim C6 amended: for a non-empty `{0,1}` label list containing both a `0`
and a `1`, if every rounded prediction equals its label then precision,
recall and accuracy are all `1`; and if every rounded prediction lies in
`{0,1}` (the restriction the counterexample forces) and differs from its
label, then — under the claim's precondition that the denominators `TP+FN`
and `TP+FP` are non-zero — all three metrics are `0`. -/
theorem evaluate_boundary (labels : List ℤ) (scores : List ℚ)
    (hne : labels ≠ [])
    (hl : ∀ l ∈ labels, l = 0 ∨ l = 1)
    (h0 : (0:ℤ) ∈ labels) (h1 : (1:ℤ) ∈ labels)
    (hlen : labels.length = scores.length) :
    (scores.map npRound = labels →
      (evalMetrics labels scores).Precision = 1 ∧
      (evalMetrics labels scores).Recall = 1 ∧
      (evalMetrics labels scores).Accuracy = 1) ∧
    ((∀ p ∈ scores.map npRound, p = 0 ∨ p = 1) →
      (∀ z ∈ labels.zip (scores.map npRound), z.1 ≠ z.2) →
      (evalMetrics labels scores).TP + (evalMetrics labels scores).FN ≠ 0 →
      (evalMetrics labels scores).TP + (evalMetrics labels scores).FP ≠ 0 →
      (evalMetrics labels scores).Precision = 0 ∧
      (evalMetrics labels scores).Recall = 0 ∧
      (evalMetrics labels scores).Accuracy = 0) := by
  constructor
  · intro hp
    have e1 := tp_zip_self labels hl
    have e2 := fp_zip_self labels hl
    have e3 := tn_zip_self labels hl
    have e4 := fn_zip_self labels hl
    have htp : tpCount (labels.zip labels) ≠ 0 := by
      rw [e1]
      have hpos : 0 < labels.countP (fun l => l == 1) :=
        List.countP_pos_iff.mpr ⟨1, h1, by simp⟩
      omega
    have htpq : ((tpCount (labels.zip labels) : ℚ)) ≠ 0 := Nat.cast_ne_zero.mpr htp
    have htpq' : (0:ℚ) < (tpCount (labels.zip labels) : ℚ) := by
      have := Nat.pos_of_ne_zero htp
      exact_mod_cast this
    rw [evalMetrics_def, hp]
    refine ⟨?_, ?_, ?_⟩ <;> dsimp only
    · rw [e2]
      simp [htpq]
    · rw [e4]
      simp [htpq]
    · rw [e2, e4]
      have hsum : (0:ℚ) < (tpCount (labels.zip labels) : ℚ) +
          (tnCount (labels.zip labels) : ℚ) := by
        have : (0:ℚ) ≤ (tnCount (labels.zip labels) : ℚ) := by positivity
        linarith
      rw [Nat.cast_zero, add_zero, add_zero]
      exact div_self (ne_of_gt hsum)
  · intro hp hdiff hd1 hd2
    have hz : ∀ z ∈ labels.zip (scores.map npRound),
        (z.1 = 0 ∨ z.1 = 1) ∧ (z.2 = 0 ∨ z.2 = 1) ∧ z.1 ≠ z.2 := by
      rintro ⟨a, b⟩ hzz
      exact ⟨hl a (List.of_mem_zip hzz).1, hp b (List.of_mem_zip hzz).2,
        hdiff (a, b) hzz⟩
    obtain ⟨htp, htn⟩ := counts_all_incorrect _ hz
    rw [evalMetrics_def]
    refine ⟨?_, ?_, ?_⟩ <;> dsimp only <;> rw [htp] <;>
      try rw [htn]
    · simp
    · simp
    · simp

/-- Witness for amended C6 at labels `[1,0]`: the all-correct half at scores
`[1,0]`, and the all-incorrect half at scores `[0,1]`. -/
theorem evaluate_boundary_witness :
    ((evalMetrics [1, 0] [(1:ℚ), 0]).Precision = 1 ∧
     (evalMetrics [1, 0] [(1:ℚ), 0]).Recall = 1 ∧
     (evalMetrics [1, 0] [(1:ℚ), 0]).Accuracy = 1) ∧
    ((evalMetrics [1, 0] [(0:ℚ), 1]).Precision = 0 ∧
     (evalMetrics [1, 0] [(0:ℚ), 1]).Recall = 0 ∧
     (evalMetrics [1, 0] [(0:ℚ), 1]).Accuracy = 0) :=
  ⟨(evaluate_boundary [1, 0] [1, 0] (by decide) (by decide) (by decide)
      (by decide) rfl).1 (by decide),
   (evaluate_boundary [1, 0] [0, 1] (by decide) (by decide) (by decide)
      (by decide) rfl).2 (by decide) (by decide) (by decide) (by decide)⟩

/-- Claim C7: `delete_endpoint` is best-effort — it attempts the SDK delete
call on the predictor's endpoint name; when that call raises any error it
prints `Already deleted: <name>` and returns normally, and on no input does
it propagate an error to the caller. -/
theorem delete_endpoint_best_effort {E : Type}
    (deleteOp : String → Except E Unit) (endpoint : String) :
    (∃ s, delete_endpoint deleteOp endpoint = Except.ok s) ∧
    (∀ e, deleteOp endpoint = Except.error e →
      delete_endpoint deleteOp endpoint =
        Except.ok ("Already deleted: " ++ endpoint)) := by
  constructor
  · cases h : deleteOp endpoint with
    | ok u => exact ⟨"Deleted " ++ endpoint, by simp [delete_endpoint, h]⟩
    | error e =>
      exact ⟨"Already deleted: " ++ endpoint, by simp [delete_endpoint, h]⟩
  · intro e he
    simp [delete_endpoint, he]

/-- Witness for C7: a delete call that always raises is reported as already
deleted. -/
theorem delete_endpoint_best_effort_witness :
    delete_endpoint (fun _ => Except.error "ValidationException") "moon-ep" =
      Except.ok ("Already deleted: " ++ "moon-ep") :=
  (delete_endpoint_best_effort (fun _ => Except.error "ValidationException")
    "moon-ep").2 "ValidationException" rfl

/-- Claim C8 (spec-modelled serialization): writing a dataset split in the
label-first, headerless tabular format and reading the file back reproduces
the original (label, features) pairs in order, and the file has one row per
dataset row. -/
theorem csv_round_trip (x : List (List ℚ)) (y : List ℚ)
    (h : x.length = y.length) :
    datasetOfRows (csvRowsOf x y) = some (y.zip x) ∧
    (csvRowsOf x y).length = x.length := by
  constructor
  · revert h
    induction y generalizing x with
    | nil =>
      intro h
      cases x with
      | nil => simp [csvRowsOf, datasetOfRows]
      | cons b xs => simp at h
    | cons a ys ih =>
      intro h
      cases x with
      | nil => simp at h
      | cons b xs =>
        have h' : xs.length = ys.length := by simpa using h
        simp [csvRowsOf, datasetOfRows, List.zip_cons_cons, ih xs h']
        simpa [csvRowsOf] using ih xs h'
  · simp [csvRowsOf, List.length_zipWith, ← h, min_self]

/-- Witness for C8 at a two-row split. -/
theorem csv_round_trip_witness :
    datasetOfRows (csvRowsOf [[(1:ℚ), 2], [3, 4]] [0, 1]) =
      some ([(0:ℚ), 1].zip [[(1:ℚ), 2], [3, 4]]) ∧
    (csvRowsOf [[(1:ℚ), 2], [3, 4]] [0, 1]).length =
      [[(1:ℚ), 2], [3, 4]].length :=
  csv_round_trip [[1, 2], [3, 4]] [0, 1] rfl

/-- Claim C9: the `verbose` flag does not influence the returned metrics —
the dictionaries from `verbose=True` and `verbose=False` coincide, and with
`verbose=False` nothing is printed. -/
theorem evaluate_verbose_noninterference {F : Type}
    (predict : List F → List ℚ) (test_features : List F)
    (test_labels : List ℤ) :
    (evaluate predict test_features test_labels true).metrics =
      (evaluate predict test_features test_labels false).metrics ∧
    (evaluate predict test_features test_labels false).printed = [] :=
  ⟨rfl, rfl⟩

/-- Claim C10: `make_csv` always returns (its model is total), prints exactly
`Path created: <data_dir>/<filename>`, writes no file, creates `data_dir`
only when absent, and leaves an existing directory — and the whole
filesystem — unchanged.  (The Python function returns `None`; the model's
returned pair is the filesystem effect plus the printed line.) -/
theorem make_csv_frame (fs : FS) (x : List (List ℚ)) (y : List ℚ)
    (filename data_dir : String) :
    (make_csv fs x y filename data_dir).2 =
      "Path created: " ++ data_dir ++ "/" ++ filename ∧
    (make_csv fs x y filename data_dir).1.files = fs.files ∧
    (data_dir ∈ fs.dirs → (make_csv fs x y filename data_dir).1 = fs) ∧
    (data_dir ∉ fs.dirs →
      (make_csv fs x y filename data_dir).1.dirs = data_dir :: fs.dirs) := by
  refine ⟨rfl, ?_, ?_, ?_⟩
  · unfold make_csv
    dsimp only
    split <;> rfl
  · intro hmem
    simp [make_csv, hmem]
  · intro hmem
    simp [make_csv, hmem]

/-- Witness for C10: on a filesystem already holding `data_moon` the state is
unchanged; on an empty filesystem the directory is created; the printed line
is the success message. -/
theorem make_csv_frame_witness :
    (make_csv ⟨["data_moon"], []⟩ [] [] "train.csv" "data_moon").2 =
      "Path created: " ++ "data_moon" ++ "/" ++ "train.csv" ∧
    (make_csv ⟨["data_moon"], []⟩ [] [] "train.csv" "data_moon").1 =
      ⟨["data_moon"], []⟩ ∧
    (make_csv ⟨[], []⟩ [] [] "train.csv" "data_moon").1.dirs = ["data_moon"] :=
  ⟨(make_csv_frame ⟨["data_moon"], []⟩ [] [] "train.csv" "data_moon").1,
   (make_csv_frame ⟨["data_moon"], []⟩ [] [] "train.csv" "data_moon").2.2.1
     (List.mem_cons_self "data_moon" []),
   (make_csv_frame ⟨[], []⟩ [] [] "train.csv" "data_moon").2.2.2
     (List.not_mem_nil "data_moon")⟩

end MoonEval
